import Mathlib

/-!
Verification of the helpdesk triage-and-draft pipeline (`src/app.py`).

Shallow embedding notes:
* Python dict records become Lean structures with `Option` fields (a `none`
  field models an absent dict key; `Option.getD` models `dict.get(k, default)`).
* The draft store (`WorkflowEngine.drafts`, a Python dict) is an association
  list `List (String × Draft)`; `get_draft`/`storeSet` model dict read/write.
* Wall-clock values (`datetime.now().isoformat()`) and the uuid-based draft id
  are nondeterministic inputs, so they are passed in as opaque `String`
  parameters.
* `str.lower()` is modelled on the ASCII and Latin-1 letter ranges, which
  cover every character of the two keyword lists.
* `re.sub(r"<[^>]+>", "", s)` is modelled by a left-to-right scanner keeping
  the characters seen since the last unmatched opening bracket: a match is an
  opening bracket, one or more characters none of which is a closing bracket,
  and the next closing bracket (leftmost match, scan resumes after it), which
  is exactly the leftmost-match behaviour of the regex.
-/

/-- Substring test used below: does `needle` start `hay`? -/
def startsWithList : List Char → List Char → Bool
  | [], _ => true
  | _ :: _, [] => false
  | a :: as2, b :: bs => a == b && startsWithList as2 bs

/-- Python's `needle in hay` substring containment on strings (as char lists). -/
def containsList (needle : List Char) : List Char → Bool
  | [] => needle.isEmpty
  | c :: rest => startsWithList needle (c :: rest) || containsList needle rest

/-- Python's `needle in hay` substring containment for `String`s. -/
def occursIn (needle hay : String) : Bool :=
  containsList needle.data hay.data

/-- Python `str.lower` restricted to the character ranges exercised by the
keyword lists: ASCII letters and the Latin-1 uppercase letters (À–Þ except ×),
which lower by adding 32 to the code point. -/
def pyLower (c : Char) : Char :=
  if 'A' ≤ c ∧ c ≤ 'Z' then Char.ofNat (c.toNat + 32)
  else if 'À' ≤ c ∧ c ≤ 'Þ' ∧ c ≠ '×' then Char.ofNat (c.toNat + 32)
  else c

/-- Lowercasing of a whole string (`str(description).lower()`). -/
def strLower (s : String) : String :=
  String.mk (s.data.map pyLower)

/-- The functional keyword list of `HelpdeskDataManager._is_functional_issue`. -/
def functional_keywords : List String :=
  ["dashboard", "interface", "menu", "écran", "affichage",
   "navigation", "bouton", "formulaire", "page", "visibles"]

/-- The technical keyword list of `HelpdeskDataManager._is_technical_issue`. -/
def technical_keywords : List String :=
  ["api", "webhook", "synchronisation", "base de données",
   "serveur", "erreur système", "crash", "migration", "journal",
   "e-commerce", "comptable"]

/-- `HelpdeskDataManager._is_functional_issue`: `none` models a NaN/missing
description, the empty string is falsy in Python. -/
def is_functional_issue : Option String → Bool
  | none => false
  | some d =>
    if d = "" then false
    else functional_keywords.any (fun k => occursIn k (strLower d))

/-- `HelpdeskDataManager._is_technical_issue`. -/
def is_technical_issue : Option String → Bool
  | none => false
  | some d =>
    if d = "" then false
    else technical_keywords.any (fun k => occursIn k (strLower d))

/-- `HelpdeskDataManager._clean_team_name`: substring checks, in source order,
on the raw (not lowercased) team text; NaN/empty input falls to the default. -/
def clean_team_name : Option String → String
  | none => "DevOps"
  | some s =>
    if s = "" then "DevOps"
    else if occursIn "Integration 1" s || occursIn "Intégration 1" s then "Integration 1"
    else if occursIn "Integration 2" s || occursIn "Intégration 2" s then "Integration 2"
    else if occursIn "DevOps" s then "DevOps"
    else "DevOps"

/-- Scanner for `re.sub(r"<[^>]+>", "", s)`.  The first argument is `none`
when no unmatched opening bracket is pending, and `some buf` (buffer reversed)
when one is pending with `buf` the characters seen since it.  An adjacent
closing bracket (`buf = []`) is not a match, since the regex requires at least
one character between the brackets. -/
def strip_html_go : Option (List Char) → List Char → List Char
  | none, [] => []
  | none, c :: rest =>
    if c = '<' then strip_html_go (some []) rest
    else c :: strip_html_go none rest
  | some buf, [] => '<' :: buf.reverse
  | some buf, c :: rest =>
    if c = '>' then
      if buf = [] then '<' :: '>' :: strip_html_go none rest
      else strip_html_go none rest
    else strip_html_go (some (c :: buf)) rest

/-- `re.sub(r"<[^>]+>", "", s)` on a char list. -/
def strip_html (l : List Char) : List Char :=
  strip_html_go none l

/-- Python `str.strip()`: drop whitespace from both ends. -/
def pyStrip (l : List Char) : List Char :=
  ((l.dropWhile Char.isWhitespace).reverse.dropWhile Char.isWhitespace).reverse

/-- `HelpdeskDataManager._clean_description`: NaN/missing or empty input gives
the empty string; otherwise remove HTML tags and strip whitespace. -/
def clean_description : Option String → String
  | none => ""
  | some s =>
    if s = "" then ""
    else String.mk (pyStrip (strip_html s.data))

/-- Modelled from the spec sentence of claim C9 ("removes every substring
starting at an opening angle bracket and extending non-greedily to the next
closing angle bracket"), i.e. the pattern `<[^>]*>` that also matches an empty
pair of brackets.  Used only to compare the claim's words with the code. -/
def claim_strip_go : Option (List Char) → List Char → List Char
  | none, [] => []
  | none, c :: rest =>
    if c = '<' then claim_strip_go (some []) rest
    else c :: claim_strip_go none rest
  | some buf, [] => '<' :: buf.reverse
  | some buf, c :: rest =>
    if c = '>' then claim_strip_go none rest
    else claim_strip_go (some (c :: buf)) rest

/-- The description cleaner as claim C9 words it (cf. `claim_strip_go`). -/
def claim_clean_description : Option String → String
  | none => ""
  | some s =>
    if s = "" then ""
    else String.mk (pyStrip (claim_strip_go none s.data))

/-- A normalized ticket record as produced by
`HelpdeskDataManager.get_ticket_by_id`: a dict whose keys may be absent
(`none`).  Only the fields the workflow engine reads are modelled. -/
structure Ticket where
  ticket_id : Option Nat := none
  customer : Option String := none
  customer_email : Option String := none
  ticket_subject : Option String := none
  team_clean : Option String := none
  priority_text : Option String := none
  is_functional : Option Bool := none
  is_technical : Option Bool := none
deriving DecidableEq

/-- `HelpdeskDataManager.get_ticket_by_id`: first row whose `ticket_id`
matches, `none` when absent (or when no data is loaded, modelled by `[]`). -/
def get_ticket_by_id (tickets : List Ticket) (ticket_id : Nat) : Option Ticket :=
  tickets.find? (fun t => t.ticket_id == some ticket_id)

/-- `WorkflowEngine.determine_response_type`: `dict.get` defaults are
`"Medium"` and `False`; decision chain as in the source. -/
def determine_response_type (ticket : Ticket) : String × String :=
  let priority := ticket.priority_text.getD "Medium"
  let isf := ticket.is_functional.getD false
  let ist := ticket.is_technical.getD false
  if priority = "Urgent" ∨ priority = "High" then
    ("urgent_acknowledgment", "Priority is " ++ priority ++ ", requires urgent response")
  else if isf then
    ("clarification_request", "Functional issue detected, clarification needed")
  else if ist ∧ (priority = "Low" ∨ priority = "Medium") then
    ("standard_acknowledgment", "Technical non-urgent issue, standard acknowledgment")
  else
    ("standard_acknowledgment", "Standard processing")

/-- A subject/body template pair of `EmailTemplateManager`. -/
structure EmailTemplate where
  subject : String
  body : String
deriving DecidableEq

/-- The `urgent_acknowledgment` template of `EmailTemplateManager`. -/
def urgent_template : EmailTemplate :=
  { subject := "URGENT - Accusé de réception - Ticket #{ticket_id}",
    body := "Bonjour {customer_name},\n\nNous avons bien reçu votre demande URGENTE concernant : {issue}\n\nNotre équipe {team} prend immédiatement en charge votre demande avec la plus haute priorité.\n\n{gpt_content}\n\nNous vous tiendrons informé de l\x27avancement dans les plus brefs délais.\n\nCordialement,\nL\x27équipe Support Karizma\n\nRéférence: #{ticket_id}" }

/-- The `clarification_request` template of `EmailTemplateManager`. -/
def clarification_template : EmailTemplate :=
  { subject := "Demande de clarification - Ticket #{ticket_id}",
    body := "Bonjour {customer_name},\n\nNous avons bien reçu votre demande concernant : {issue}\n\nNotre équipe {team} étudie votre demande fonctionnelle.\n\n{gpt_content}\n\nN\x27hésitez pas à nous contacter pour toute information complémentaire.\n\nCordialement,\nL\x27équipe Support Karizma\n\nRéférence: #{ticket_id}" }

/-- The `standard_acknowledgment` template of `EmailTemplateManager`. -/
def standard_template : EmailTemplate :=
  { subject := "Accusé de réception - Ticket #{ticket_id}",
    body := "Bonjour {customer_name},\n\nNous avons bien reçu votre demande concernant : {issue}\n\nNotre équipe {team} prend en charge votre demande technique.\n\n{gpt_content}\n\nNous vous tiendrons informé de l\x27avancement.\n\nCordialement,\nL\x27équipe Support Karizma\n\nRéférence: #{ticket_id}" }

/-- `EmailTemplateManager.get_template` (`self.templates.get(response_type)`). -/
def get_template (response_type : String) : Option EmailTemplate :=
  if response_type = "urgent_acknowledgment" then some urgent_template
  else if response_type = "clarification_request" then some clarification_template
  else if response_type = "standard_acknowledgment" then some standard_template
  else none

/-- Fallback paragraph for `urgent_acknowledgment`
(`GPTContentGenerator._get_fallback_content`). -/
def fallback_urgent : String :=
  "Cette situation requiert notre attention immédiate et nous mobilisons dès maintenant toutes nos ressources pour vous apporter une solution rapide. Notre équipe technique spécialisée va prendre contact avec vous dans les plus brefs délais."

/-- Fallback paragraph for `clarification_request`. -/
def fallback_clarification : String :=
  "Afin de vous proposer la solution la plus adaptée à vos besoins, nous souhaiterions obtenir quelques informations complémentaires concernant votre environnement et les circonstances de ce problème. Un membre de notre équipe va vous contacter prochainement."

/-- Fallback paragraph for `standard_acknowledgment`. -/
def fallback_standard : String :=
  "Nous avons assigné votre demande à notre équipe technique qui possède l\x27expertise nécessaire pour résoudre ce type de problématique. Nous vous tiendrons informé régulièrement de l\x27avancement de la résolution."

/-- Generic fallback paragraph for any unrecognized response type
(`fallback_map.get(response_type, ...)` default). -/
def fallback_generic : String :=
  "Nous prenons en charge votre demande avec toute l\x27attention qu\x27elle mérite et vous tiendrons informé de son évolution."

/-- `GPTContentGenerator._get_fallback_content`.  The source also reads
`ticket.get("ticket_subject", "votre demande")` into a local that the fixed
paragraphs never use; it is kept here as an unused binding. -/
def get_fallback_content (ticket : Ticket) (response_type : String) : String :=
  let _subject := ticket.ticket_subject.getD "votre demande"
  if response_type = "urgent_acknowledgment" then fallback_urgent
  else if response_type = "clarification_request" then fallback_clarification
  else if response_type = "standard_acknowledgment" then fallback_standard
  else fallback_generic

/-- `GPTContentGenerator.generate_content` on the provider-unconfigured or
provider-failing path: both the missing/placeholder-key branch and the
`except` branch return `_get_fallback_content` (the remote-success path is
nondeterministic I/O and outside this model). -/
def generate_content_fallback (ticket : Ticket) (response_type : String) : String :=
  get_fallback_content ticket response_type

/-- `str.format`-style substitution: replace each `\x7bname\x7d` placeholder
by its value (the five placeholder names below never occur in the values
substituted by the source templates). -/
def format_template (template : String) (placeholders : List (String × String)) : String :=
  placeholders.foldl (fun s kv => s.replace ("\x7b" ++ kv.1 ++ "\x7d") kv.2) template

/-- `WorkflowEngine._merge_template_content`.  The email record is a dict,
modelled as an association list; the integer `ticket_id` is rendered in its
decimal form. -/
def merge_template_content (ticket : Ticket) (template : EmailTemplate)
    (gpt_content : String) : List (String × String) :=
  let tid := match ticket.ticket_id with | some n => toString n | none => ""
  let placeholders :=
    [("ticket_id", tid),
     ("customer_name", ticket.customer.getD ""),
     ("issue", ticket.ticket_subject.getD ""),
     ("team", ticket.team_clean.getD ""),
     ("gpt_content", gpt_content)]
  [("to", ticket.customer_email.getD ""),
   ("subject", format_template template.subject placeholders),
   ("body", format_template template.body placeholders),
   ("ticket_id", tid)]

/-- A draft record of `WorkflowEngine.drafts`; the three trailing timestamps
are dict keys that exist only after the corresponding action. -/
structure Draft where
  id : String
  email_content : List (String × String)
  ticket_id : Nat
  status : String
  created_at : String
  sent_at : Option String := none
  modified_at : Option String := none
  cancelled_at : Option String := none
deriving DecidableEq

/-- Read access `self.drafts.get(draft_id)` (`WorkflowEngine.get_draft`). -/
def get_draft : List (String × Draft) → String → Option Draft
  | [], _ => none
  | (k, v) :: rest, id => if k = id then some v else get_draft rest id

/-- Write access `self.drafts[draft_id] = d`. -/
def storeSet : List (String × Draft) → String → Draft → List (String × Draft)
  | [], id, d => [(id, d)]
  | (k, v) :: rest, id, d =>
    if k = id then (id, d) :: rest else (k, v) :: storeSet rest id d

/-- `WorkflowEngine._create_draft`; the uuid-based id and the timestamp are
passed in as opaque parameters. -/
def create_draft (drafts : List (String × Draft)) (email_content : List (String × String))
    (ticket_id : Nat) (new_draft_id : String) (now : String) :
    String × List (String × Draft) :=
  let draft : Draft :=
    { id := new_draft_id, email_content := email_content, ticket_id := ticket_id,
      status := "draft", created_at := now }
  (new_draft_id, storeSet drafts new_draft_id draft)

/-- Dict lookup on an email record (`key in draft["email_content"]` /
`draft["email_content"][key]`). -/
def assocGet : List (String × String) → String → Option String
  | [], _ => none
  | (k, v) :: rest, key => if k = key then some v else assocGet rest key

/-- Dict assignment guarded by key presence: `draft["email_content"][key] = value`
under `if key in draft["email_content"]` — an absent key leaves the record
unchanged. -/
def assocUpdate : List (String × String) → String → String → List (String × String)
  | [], _, _ => []
  | (k, v) :: rest, key, value =>
    if k = key then (k, value) :: rest else (k, v) :: assocUpdate rest key value

/-- The modification loop of the `edit` branch of
`WorkflowEngine.validate_and_send_draft`. -/
def applyMods (email : List (String × String)) (mods : List (String × String)) :
    List (String × String) :=
  mods.foldl (fun e kv => assocUpdate e kv.1 kv.2) email

/-- The result dict of `WorkflowEngine.validate_and_send_draft`. -/
structure ActionResult where
  success : Bool
  error : Option String := none
  message : Option String := none
  draft_id : Option String := none
  modifications : Option (List (String × String)) := none
  action : Option String := none
deriving DecidableEq

/-- `WorkflowEngine.validate_and_send_draft`.  `modifications = none` models
the Python default `None`; Python's `if modifications:` is true exactly for a
present, non-empty mapping.  Any action other than `"send"` and `"edit"`
falls into the final `else` (cancel) branch, as in the source.  The send
branch first evaluates `draft["email_content"]["subject"]` inside its logging
f-string, before touching the status: when the email record has no `subject`
key this raises `KeyError`, which the enclosing `except` turns into
`{"success": False, "error": str(e)}` — `str` of `KeyError("subject")` is
`\x27subject\x27` with the quotes — and the store is left unchanged. -/
def validate_and_send_draft (drafts : List (String × Draft)) (draft_id : String)
    (action : String) (modifications : Option (List (String × String))) (now : String) :
    ActionResult × List (String × Draft) :=
  match get_draft drafts draft_id with
  | none => ({ success := false, error := some "Draft not found" }, drafts)
  | some draft =>
    if action = "send" then
      match assocGet draft.email_content "subject" with
      | none =>
        ({ success := false, error := some "\x27subject\x27" }, drafts)
      | some _ =>
        let d2 := { draft with status := "sent", sent_at := some now }
        ({ success := true, message := some "Email sent successfully",
           draft_id := some draft_id, action := some "sent" },
         storeSet drafts draft_id d2)
    else if action = "edit" then
      match modifications with
      | some (m :: ms) =>
        let newEmail := applyMods draft.email_content (m :: ms)
        let d2 := { draft with email_content := newEmail, modified_at := some now }
        ({ success := true, message := some "Draft updated with modifications",
           draft_id := some draft_id, modifications := modifications,
           action := some "edited" },
         storeSet drafts draft_id d2)
      | _ =>
        ({ success := true, message := some "Draft updated with modifications",
           draft_id := some draft_id, modifications := modifications,
           action := some "edited" },
         drafts)
    else
      let d2 := { draft with status := "cancelled", cancelled_at := some now }
      ({ success := true, message := some "Draft cancelled",
         draft_id := some draft_id, action := some "cancelled" },
       storeSet drafts draft_id d2)

/-- The result dict of `WorkflowEngine.process_manual_workflow`. -/
structure WfResult where
  success : Bool
  error : Option String := none
  workflow_id : Option String := none
  ticket : Option Ticket := none
  response_type : Option String := none
  reasoning : Option String := none
  gpt_content : Option String := none
  final_email : Option (List (String × String)) := none
  draft_id : Option String := none
deriving DecidableEq

/-- `WorkflowEngine.process_manual_workflow` with the content provider on its
fallback path (`generate_content_fallback`, which never fails).  The two
`raise ValueError` sites are caught by the enclosing `except` and become the
failure results below; no later step can raise. -/
def process_manual_workflow (tickets : List Ticket) (drafts : List (String × Draft))
    (ticket_id : Nat) (new_draft_id : String) (now : String) :
    WfResult × List (String × Draft) :=
  match get_ticket_by_id tickets ticket_id with
  | none =>
    ({ success := false, error := some ("Ticket " ++ toString ticket_id ++ " not found") },
     drafts)
  | some ticket =>
    let rt := determine_response_type ticket
    match get_template rt.1 with
    | none =>
      ({ success := false, error := some ("Template " ++ rt.1 ++ " not found") }, drafts)
    | some template =>
      let gpt_content := generate_content_fallback ticket rt.1
      let final_email := merge_template_content ticket template gpt_content
      let cd := create_draft drafts final_email ticket_id new_draft_id now
      ({ success := true, workflow_id := some ("workflow_" ++ now),
         ticket := some ticket, response_type := some rt.1, reasoning := some rt.2,
         gpt_content := some gpt_content, final_email := some final_email,
         draft_id := some cd.1 },
       cd.2)

/-- Sample draft used to instantiate the lifecycle theorems. -/
def sampleDraft : Draft :=
  { id := "d1",
    email_content := [("to", "it@acme.com"), ("subject", "S"), ("body", "B"), ("ticket_id", "30000")],
    ticket_id := 30000, status := "draft", created_at := "T0" }

/-- Sample draft already cancelled, for the any-status send theorem. -/
def cancelledDraft : Draft :=
  { sampleDraft with id := "d2", status := "cancelled", cancelled_at := some "T0" }

/-- A draft whose email record has no `subject` key, as `_create_draft` and
the create-draft endpoint store arbitrary email dicts without any shape
check. -/
def noSubjectDraft : Draft :=
  { id := "d3", email_content := [("to", "x@y.z"), ("body", "B"), ("ticket_id", "1")],
    ticket_id := 1, status := "draft", created_at := "T0" }

/-! ## Helper lemmas -/

/-- Writing a draft and reading the same key gives the written draft. -/
theorem get_draft_storeSet (drafts : List (String × Draft)) (id : String) (d : Draft) :
    get_draft (storeSet drafts id d) id = some d := by
  induction drafts with
  | nil => simp [storeSet, get_draft]
  | cons kv rest ih =>
    obtain ⟨k, v⟩ := kv
    by_cases h : k = id
    · simp [storeSet, h, get_draft]
    · simp [storeSet, h, get_draft, ih]

/-- Updating an email record at an absent key is a no-op. -/
theorem assocUpdate_of_none (e : List (String × String)) (key v : String)
    (h : assocGet e key = none) : assocUpdate e key v = e := by
  induction e with
  | nil => rfl
  | cons kv rest ih =>
    obtain ⟨k, w⟩ := kv
    by_cases hk : k = key
    · simp [assocGet, hk] at h
    · simp [assocGet, hk] at h
      simp [assocUpdate, hk, ih h]

/-- Updating one key does not change lookups at other keys. -/
theorem assocGet_assocUpdate_ne (e : List (String × String)) (key v k : String)
    (h : k ≠ key) : assocGet (assocUpdate e key v) k = assocGet e k := by
  induction e with
  | nil => rfl
  | cons kv rest ih =>
    obtain ⟨k', w⟩ := kv
    by_cases hk : k' = key
    · have hkk : ¬ k' = k := fun hh => h (hk ▸ hh ▸ rfl)
      rw [assocUpdate, if_pos hk, assocGet, if_neg hkk, assocGet, if_neg hkk]
    · by_cases hkk : k' = k
      · rw [assocUpdate, if_neg hk, assocGet, if_pos hkk, assocGet, if_pos hkk]
      · rw [assocUpdate, if_neg hk, assocGet, if_neg hkk, assocGet, if_neg hkk, ih]

/-- Updating never creates a key. -/
theorem assocGet_assocUpdate_none (e : List (String × String)) (key v k : String)
    (h : assocGet e k = none) : assocGet (assocUpdate e key v) k = none := by
  induction e with
  | nil => rfl
  | cons kv rest ih =>
    obtain ⟨k', w⟩ := kv
    by_cases hkk : k' = k
    · rw [assocGet, if_pos hkk] at h
      exact absurd h (by simp)
    · rw [assocGet, if_neg hkk] at h
      by_cases hk : k' = key
      · rw [assocUpdate, if_pos hk, assocGet, if_neg hkk]
        exact h
      · rw [assocUpdate, if_neg hk, assocGet, if_neg hkk]
        exact ih h

/-- The modification loop never creates a key. -/
theorem assocGet_applyMods_none (mods : List (String × String)) :
    ∀ (e : List (String × String)) (k : String),
      assocGet e k = none → assocGet (applyMods e mods) k = none := by
  induction mods with
  | nil => intro e k h; simpa [applyMods] using h
  | cons kv ms ih =>
    intro e k h
    have h2 : assocGet (assocUpdate e kv.1 kv.2) k = none :=
      assocGet_assocUpdate_none e kv.1 kv.2 k h
    simpa [applyMods] using ih (assocUpdate e kv.1 kv.2) k h2

/-- Keys not named in the modifications keep their values. -/
theorem assocGet_applyMods_not_mem (mods : List (String × String)) :
    ∀ (e : List (String × String)) (k : String),
      k ∉ mods.map Prod.fst → assocGet (applyMods e mods) k = assocGet e k := by
  induction mods with
  | nil => intro e k _; simp [applyMods]
  | cons kv ms ih =>
    intro e k h
    have hne : k ≠ kv.1 := by
      intro hk; exact h (by simp [hk])
    have hms : k ∉ ms.map Prod.fst := by
      intro hk; exact h (by simp [hk])
    calc assocGet (applyMods e (kv :: ms)) k
        = assocGet (applyMods (assocUpdate e kv.1 kv.2) ms) k := by simp [applyMods]
      _ = assocGet (assocUpdate e kv.1 kv.2) k := ih _ k hms
      _ = assocGet e k := assocGet_assocUpdate_ne e kv.1 kv.2 k hne

/-- A string without an opening bracket is left unchanged by the tag scanner. -/
theorem strip_html_go_none_of_not_mem : ∀ l : List Char, '<' ∉ l → strip_html_go none l = l := by
  intro l
  induction l with
  | nil => intro _; rfl
  | cons c rest ih =>
    intro h
    have hc : ¬ c = '<' := fun hc => h (hc ▸ List.mem_cons_self c rest)
    have h' : '<' ∉ rest := fun hm => h (List.mem_cons_of_mem c hm)
    simp [strip_html_go, hc, ih h']

/-- With a pending opening bracket, a nonempty closing-bracket-free run followed
by a closing bracket is consumed entirely (the regex match). -/
theorem strip_html_go_some_tag : ∀ (tag buf post : List Char),
    '>' ∉ tag → (buf ≠ [] ∨ tag ≠ []) →
    strip_html_go (some buf) (tag ++ '>' :: post) = strip_html_go none post := by
  intro tag
  induction tag with
  | nil =>
    intro buf post _ hne
    have hb : ¬ buf = [] := by
      rcases hne with h | h
      · exact h
      · exact absurd rfl h
    simp [strip_html_go, hb]
  | cons c t ih =>
    intro buf post hgt hne
    have hc : ¬ c = '>' := fun hc => hgt (hc ▸ List.mem_cons_self c t)
    have ht : '>' ∉ t := fun hm => hgt (List.mem_cons_of_mem c hm)
    simp only [List.cons_append, strip_html_go, if_neg hc]
    exact ih (c :: buf) post ht (Or.inl (by simp))

/-- `re.sub(r"<[^>]+>", "", s)` removes a leftmost tag: an opening bracket, a
nonempty run without closing brackets, and the next closing bracket. -/
theorem strip_html_removes : ∀ (pre tag post : List Char),
    '<' ∉ pre → '>' ∉ tag → tag ≠ [] →
    strip_html (pre ++ '<' :: (tag ++ '>' :: post)) = pre ++ strip_html post := by
  intro pre
  induction pre with
  | nil =>
    intro tag post _ htag hne
    show strip_html_go none ('<' :: (tag ++ '>' :: post)) = strip_html_go none post
    simp only [strip_html_go, if_pos rfl]
    exact strip_html_go_some_tag tag [] post htag (Or.inr hne)
  | cons c p ih =>
    intro tag post hpre htag hne
    have hc : ¬ c = '<' := fun hc => hpre (hc ▸ List.mem_cons_self c p)
    have hp : '<' ∉ p := fun hm => hpre (List.mem_cons_of_mem c hm)
    show strip_html_go none (c :: (p ++ '<' :: (tag ++ '>' :: post)))
        = c :: p ++ strip_html post
    simp only [strip_html_go, if_neg hc]
    exact congrArg (c :: ·) (ih tag post hp htag hne)

/-! ## Claim theorems -/

/-- C1: for every ticket whose `priority_text` is `Urgent` or `High`,
`determine_response_type` returns `urgent_acknowledgment`, whatever the
`is_functional` and `is_technical` flags are. -/
theorem C1_urgent_priority (t : Ticket)
    (h : t.priority_text = some "Urgent" ∨ t.priority_text = some "High") :
    (determine_response_type t).1 = "urgent_acknowledgment" := by
  rcases h with h | h <;> simp [determine_response_type, h]

/-- Witness for C1 at a concrete ticket with both flags set. -/
theorem C1_witness :
    (determine_response_type
      { priority_text := some "Urgent", is_functional := some true,
        is_technical := some true }).1 = "urgent_acknowledgment" :=
  C1_urgent_priority
    { priority_text := some "Urgent", is_functional := some true, is_technical := some true }
    (Or.inl rfl)

/-- C2: for every ticket whose `priority_text` is neither `Urgent` nor `High`,
the resolver returns `clarification_request` exactly when `is_functional`
holds (functional precedes technical) and `standard_acknowledgment` in every
other case; moreover missing fields behave as the normalized defaults
(`Medium` priority, both flags false), so the function is total. -/
theorem C2_nonurgent_resolution (t : Ticket)
    (h1 : t.priority_text ≠ some "Urgent") (h2 : t.priority_text ≠ some "High") :
    ((determine_response_type t).1 =
      if t.is_functional.getD false then "clarification_request"
      else "standard_acknowledgment") ∧
    determine_response_type t =
      determine_response_type
        { t with priority_text := some (t.priority_text.getD "Medium"),
                 is_functional := some (t.is_functional.getD false),
                 is_technical := some (t.is_technical.getD false) } := by
  constructor
  · have hp : ¬ (t.priority_text.getD "Medium" = "Urgent" ∨
        t.priority_text.getD "Medium" = "High") := by
      rcases hpt : t.priority_text with _ | p
      · decide
      · rw [hpt] at h1 h2
        simp only [Option.getD_some]
        push_neg
        exact ⟨fun hu => h1 (by rw [hu]), fun hh => h2 (by rw [hh])⟩
    simp only [determine_response_type, if_neg hp]
    cases hf : t.is_functional.getD false
    · simp only [Bool.false_eq_true, if_false]
      split <;> rfl
    · simp
  · simp [determine_response_type]

/-- Witness for C2 at a concrete low-priority functional ticket. -/
theorem C2_witness :
    (determine_response_type
      { priority_text := some "Low", is_functional := some true,
        is_technical := some true }).1 = "clarification_request" := by
  have h := (C2_nonurgent_resolution
    { priority_text := some "Low", is_functional := some true, is_technical := some true }
    (by decide) (by decide)).1
  simpa using h

/-- C3: when no ticket with the requested id exists,
`process_manual_workflow` returns a structured not-found failure and leaves
the draft store unchanged; and in general a failure result means the draft
store is unchanged (draft creation is the last step, only on full success). -/
theorem C3_notfound_no_draft (tickets : List Ticket) (drafts : List (String × Draft))
    (tid : Nat) (nid now : String) :
    (get_ticket_by_id tickets tid = none →
      (process_manual_workflow tickets drafts tid nid now).1.success = false ∧
      (process_manual_workflow tickets drafts tid nid now).1.error =
        some ("Ticket " ++ toString tid ++ " not found") ∧
      (process_manual_workflow tickets drafts tid nid now).2 = drafts) ∧
    ((process_manual_workflow tickets drafts tid nid now).1.success = false →
      (process_manual_workflow tickets drafts tid nid now).2 = drafts) := by
  constructor
  · intro h
    simp [process_manual_workflow, h]
  · intro hs
    cases hT : get_ticket_by_id tickets tid with
    | none => simp [process_manual_workflow, hT]
    | some t =>
      cases hTemp : get_template (determine_response_type t).1 with
      | none => simp [process_manual_workflow, hT, hTemp]
      | some tpl =>
        rw [process_manual_workflow, hT] at hs
        simp only [hTemp] at hs
        exact absurd hs (by simp)

/-- Witness for C3: processing an unknown ticket id on an empty store. -/
theorem C3_witness :
    (process_manual_workflow [] [] 99 "d9" "T0").1.success = false ∧
    (process_manual_workflow [] [] 99 "d9" "T0").1.error = some "Ticket 99 not found" ∧
    (process_manual_workflow [] [] 99 "d9" "T0").2 = [] := by
  have h := (C3_notfound_no_draft [] [] 99 "d9" "T0").1 rfl
  exact ⟨h.1, h.2.1, h.2.2⟩

/-- C4: with the provider unconfigured or failing, content generation is the
total function `generate_content_fallback`: it never returns the empty string
and returns the fixed paragraph of the response type (the generic fourth
string for any unrecognized type), independently of the ticket. -/
theorem C4_fallback_content (t : Ticket) (rt : String) :
    generate_content_fallback t rt ≠ "" ∧
    generate_content_fallback t rt =
      (if rt = "urgent_acknowledgment" then fallback_urgent
       else if rt = "clarification_request" then fallback_clarification
       else if rt = "standard_acknowledgment" then fallback_standard
       else fallback_generic) := by
  refine ⟨?_, rfl⟩
  show (if rt = "urgent_acknowledgment" then fallback_urgent
       else if rt = "clarification_request" then fallback_clarification
       else if rt = "standard_acknowledgment" then fallback_standard
       else fallback_generic) ≠ ""
  split_ifs <;> decide

/-- C5 counterexample: the claim says every `edit` sets `modified_at` to the
current time, but with an empty modifications mapping (falsy in Python) the
source skips the whole block: the draft — `modified_at` included — and the
store are left untouched. -/
theorem C5_counterexample :
    (validate_and_send_draft [("d1", sampleDraft)] "d1" "edit" (some []) "T1").1.success
      = true ∧
    (validate_and_send_draft [("d1", sampleDraft)] "d1" "edit" (some []) "T1").2
      = [("d1", sampleDraft)] ∧
    get_draft (validate_and_send_draft [("d1", sampleDraft)] "d1" "edit" (some []) "T1").2 "d1"
      = some sampleDraft ∧
    sampleDraft.modified_at = none ∧ sampleDraft.modified_at ≠ some "T1" := by
  refine ⟨rfl, rfl, rfl, rfl, by decide⟩

/-- C5 (amended): `edit` on an existing draft always reports success; with a
non-empty modifications mapping it updates the email record only at keys
already present (unknown keys are ignored and no key is created), leaves every
other draft field — status included — unchanged and sets `modified_at` to the
current time; with an empty mapping the store is unchanged. -/
theorem C5_edit_frame (drafts : List (String × Draft)) (draft_id : String) (draft : Draft)
    (mods : List (String × String)) (now : String)
    (h : get_draft drafts draft_id = some draft) :
    (validate_and_send_draft drafts draft_id "edit" (some mods) now).1.success = true ∧
    (mods = [] → (validate_and_send_draft drafts draft_id "edit" (some mods) now).2 = drafts) ∧
    get_draft (validate_and_send_draft drafts draft_id "edit" (some mods) now).2 draft_id =
      some { draft with
              email_content := applyMods draft.email_content mods,
              modified_at := if mods = [] then draft.modified_at else some now } ∧
    (∀ k, assocGet draft.email_content k = none →
      assocGet (applyMods draft.email_content mods) k = none) ∧
    (∀ k, k ∉ mods.map Prod.fst →
      assocGet (applyMods draft.email_content mods) k = assocGet draft.email_content k) := by
  refine ⟨?_, ?_, ?_, ?_, ?_⟩
  · rw [validate_and_send_draft, h]
    cases mods <;> simp
  · intro hm
    subst hm
    rw [validate_and_send_draft, h]
    simp
  · rw [validate_and_send_draft, h]
    cases mods with
    | nil =>
      simpa [applyMods] using h
    | cons m ms =>
      simp [get_draft_storeSet]
  · exact fun k hk => assocGet_applyMods_none mods draft.email_content k hk
  · exact fun k hk => assocGet_applyMods_not_mem mods draft.email_content k hk

/-- Witness for C5: editing only `subject` leaves `to`, `body` and the status
untouched and stamps `modified_at`. -/
theorem C5_witness :
    get_draft (validate_and_send_draft [("d1", sampleDraft)] "d1" "edit"
        (some [("subject", "New subject")]) "T1").2 "d1" =
      some { sampleDraft with
              email_content := applyMods sampleDraft.email_content [("subject", "New subject")],
              modified_at := some "T1" } := by
  have h := (C5_edit_frame [("d1", sampleDraft)] "d1" sampleDraft
    [("subject", "New subject")] "T1" rfl).2.2.1
  simpa using h

/-- C6 counterexample: the claim says `send` succeeds on every existing
draft, but the send branch subscripts `email_content["subject"]` in its
logging f-string before updating the status, so for an existing draft whose
email record lacks a `subject` key the `KeyError` is caught by the `except`
and the call returns `success = False` with the store unchanged. -/
theorem C6_counterexample :
    get_draft [("d3", noSubjectDraft)] "d3" = some noSubjectDraft ∧
    (validate_and_send_draft [("d3", noSubjectDraft)] "d3" "send" none "T2").1.success
      = false ∧
    (validate_and_send_draft [("d3", noSubjectDraft)] "d3" "send" none "T2").1.error
      = some "\x27subject\x27" ∧
    (validate_and_send_draft [("d3", noSubjectDraft)] "d3" "send" none "T2").2
      = [("d3", noSubjectDraft)] := by
  refine ⟨rfl, rfl, rfl, rfl⟩

/-- C6 (amended): `send` on an existing draft whose email record has a
`subject` key succeeds whatever its current status is (including `sent` and
`cancelled` — no status is rejected): the status becomes `sent` and `sent_at`
is stamped. -/
theorem C6_send_any_status (drafts : List (String × Draft)) (draft_id : String)
    (draft : Draft) (mods : Option (List (String × String))) (now : String)
    (h : get_draft drafts draft_id = some draft)
    (hsubj : (assocGet draft.email_content "subject").isSome = true) :
    (validate_and_send_draft drafts draft_id "send" mods now).1.success = true ∧
    (validate_and_send_draft drafts draft_id "send" mods now).1.action = some "sent" ∧
    get_draft (validate_and_send_draft drafts draft_id "send" mods now).2 draft_id =
      some { draft with status := "sent", sent_at := some now } := by
  rcases hs : assocGet draft.email_content "subject" with _ | subj
  · rw [hs] at hsubj
    exact absurd hsubj (by simp)
  · rw [validate_and_send_draft, h]
    simp [hs, get_draft_storeSet]

/-- Witness for C6: re-sending an already cancelled draft (whose email record
does contain `subject`) succeeds. -/
theorem C6_witness :
    (validate_and_send_draft [("d2", cancelledDraft)] "d2" "send" none "T2").1.success
      = true ∧
    get_draft (validate_and_send_draft [("d2", cancelledDraft)] "d2" "send" none "T2").2 "d2"
      = some { cancelledDraft with status := "sent", sent_at := some "T2" } := by
  have h := C6_send_any_status [("d2", cancelledDraft)] "d2" cancelledDraft none "T2" rfl rfl
  exact ⟨h.1, h.2.2⟩

/-- C7: every action other than `send` and `edit` — unknown or misspelled ones
included — falls into the final `else` branch and is treated as a cancel: the
status becomes `cancelled`, `cancelled_at` is stamped and the call reports
success instead of rejecting the action. -/
theorem C7_unknown_action_cancels (drafts : List (String × Draft)) (draft_id action : String)
    (draft : Draft) (mods : Option (List (String × String))) (now : String)
    (h : get_draft drafts draft_id = some draft)
    (hs : action ≠ "send") (he : action ≠ "edit") :
    (validate_and_send_draft drafts draft_id action mods now).1.success = true ∧
    (validate_and_send_draft drafts draft_id action mods now).1.action = some "cancelled" ∧
    get_draft (validate_and_send_draft drafts draft_id action mods now).2 draft_id =
      some { draft with status := "cancelled", cancelled_at := some now } := by
  rw [validate_and_send_draft, h]
  simp [hs, he, get_draft_storeSet]

/-- Witness for C7: a misspelled action cancels the draft. -/
theorem C7_witness :
    (validate_and_send_draft [("d1", sampleDraft)] "d1" "oops" none "T3").1.action
      = some "cancelled" ∧
    get_draft (validate_and_send_draft [("d1", sampleDraft)] "d1" "oops" none "T3").2 "d1"
      = some { sampleDraft with status := "cancelled", cancelled_at := some "T3" } := by
  have h := C7_unknown_action_cancels [("d1", sampleDraft)] "d1" "oops" sampleDraft none "T3"
    rfl (by decide) (by decide)
  exact ⟨h.2.1, h.2.2⟩

/-- C8: `is_functional_issue` holds exactly when one of the ten functional
keywords occurs (case-insensitively) in the description, `is_technical_issue`
exactly when one of the eleven technical keywords occurs; the two flags are
independent and can both hold on the same description. -/
theorem C8_classifier_keywords (d : String) :
    (is_functional_issue (some d) = true ↔
      ∃ k ∈ functional_keywords, occursIn k (strLower d) = true) ∧
    (is_technical_issue (some d) = true ↔
      ∃ k ∈ technical_keywords, occursIn k (strLower d) = true) ∧
    is_functional_issue (some "Crash du DASHBOARD") = true ∧
    is_technical_issue (some "Crash du DASHBOARD") = true := by
  refine ⟨?_, ?_, by decide, by decide⟩
  · by_cases hd : d = ""
    · subst hd; decide
    · simp [is_functional_issue, hd, List.any_eq_true]
  · by_cases hd : d = ""
    · subst hd; decide
    · simp [is_technical_issue, hd, List.any_eq_true]

/-- C9 counterexample: the claim's reading removes an empty bracket pair, but
the source pattern `<[^>]+>` needs at least one character between the
brackets, so the code leaves `a<>b` unchanged while the claim's cleaner
(`claim_clean_description`) yields `ab`. -/
theorem C9_counterexample :
    clean_description (some "a<>b") = "a<>b" ∧
    claim_clean_description (some "a<>b") = "ab" ∧
    clean_description (some "a<>b") ≠ claim_clean_description (some "a<>b") := by
  refine ⟨by decide, by decide, by decide⟩

/-- C9 (amended): the cleaner removes every substring made of an opening
angle bracket, at least one character none of which is a closing angle
bracket, and the next closing angle bracket (an opening bracket immediately
followed by a closing one is left in place), trims surrounding whitespace,
and maps a missing or empty description to the empty string; on the spec's
example it yields `Hello World`. -/
theorem C9_clean_description (s : String) :
    (∀ pre tag post : List Char, '<' ∉ pre → '>' ∉ tag → tag ≠ [] →
      strip_html (pre ++ '<' :: (tag ++ '>' :: post)) = pre ++ strip_html post) ∧
    (∀ l : List Char, '<' ∉ l → strip_html l = l) ∧
    (s ≠ "" → clean_description (some s) = String.mk (pyStrip (strip_html s.data))) ∧
    clean_description none = "" ∧
    clean_description (some "") = "" ∧
    clean_description (some "<p>Hello <b>World</b></p>") = "Hello World" := by
  refine ⟨strip_html_removes, ?_, ?_, rfl, rfl, by decide⟩
  · intro l hl
    exact strip_html_go_none_of_not_mem l hl
  · intro hs
    simp [clean_description, hs]

/-- Witness for C9: the removal lemma applied to a concrete tagged string. -/
theorem C9_witness :
    strip_html ('x' :: '<' :: 'b' :: '>' :: 'y' :: []) = 'x' :: strip_html ['y'] ∧
    clean_description (some "x") = "x" := by
  have h := C9_clean_description "x"
  refine ⟨h.1 ['x'] ['b'] ['y'] (by decide) (by decide) (by decide), ?_⟩
  have h2 := h.2.2.1 (by decide)
  simpa using h2

/-- C10: team normalization returns `Integration 1` exactly when the raw text
contains `Integration 1` or `Intégration 1`, else `Integration 2` exactly when
it contains `Integration 2` or `Intégration 2`, and `DevOps` in every other
case, missing input included. -/
theorem C10_team_normalization (s : String) :
    (clean_team_name (some s) = "Integration 1" ↔
      (occursIn "Integration 1" s = true ∨ occursIn "Intégration 1" s = true)) ∧
    (clean_team_name (some s) = "Integration 2" ↔
      (¬(occursIn "Integration 1" s = true ∨ occursIn "Intégration 1" s = true) ∧
       (occursIn "Integration 2" s = true ∨ occursIn "Intégration 2" s = true))) ∧
    (clean_team_name (some s) = "DevOps" ↔
      (¬(occursIn "Integration 1" s = true ∨ occursIn "Intégration 1" s = true) ∧
       ¬(occursIn "Integration 2" s = true ∨ occursIn "Intégration 2" s = true))) ∧
    clean_team_name none = "DevOps" := by
  by_cases hs : s = ""
  · subst hs; decide
  · by_cases h1 : occursIn "Integration 1" s = true <;>
    by_cases h2 : occursIn "Intégration 1" s = true <;>
    by_cases h3 : occursIn "Integration 2" s = true <;>
    by_cases h4 : occursIn "Intégration 2" s = true <;>
      simp [clean_team_name, hs, h1, h2, h3, h4]
